import Mathlib

/-!
Shallow embedding of the WMM field-synthesis engine found in src/geomag.c
(functions load_coefficients, geomag_init, geomag_calculate and
geomag_calculate_uncertainty) together with proofs about it.  C doubles are
modelled as real numbers, the fixed-size C arrays as total functions from
natural-number indices, and the coefficient file as a list of already-parsed
records (file I/O and scanf failures are outside the embedding).  The
uninitialised entries of the local C arrays (snorm, dp, pp, sp, cp, tc) are
modelled as 0; the C code never reads an entry before writing it, so the
choice is not observable.
-/

namespace Geomag

noncomputable section

/-- WMM_SIZE_STANDARD from geomag.h. -/
def WMM_SIZE_STANDARD : ℕ := 12

/-- WMM_SIZE_HIGH_RESOLUTION from geomag.h. -/
def WMM_SIZE_HIGH_RESOLUTION : ℕ := 133

/-- BLACKOUT_ZONE from geomag.h, in nanotesla. -/
def BLACKOUT_ZONE : ℝ := 2000

/-- CAUTION_ZONE from geomag.h, in nanotesla. -/
def CAUTION_ZONE : ℝ := 6000

/-- WGS84 semi-major axis in km (WGS84_A in geomag.h). -/
def WGS84_A : ℝ := 6378.137

/-- WGS84 semi-minor axis in km (WGS84_B in geomag.h). -/
def WGS84_B : ℝ := 6356.7523142

/-- Mean earth radius in km (WGS84_RE in geomag.h). -/
def WGS84_RE : ℝ := 6371.2

def WMM_MODEL_2015_LOWER : ℝ := 2015
def WMM_MODEL_2015_UPPER : ℝ := 2020
def WMM_MODEL_2020_LOWER : ℝ := 2020
def WMM_MODEL_2020_UPPER : ℝ := 2025
def WMM_MODEL_2025_LOWER : ℝ := 2025
def WMM_MODEL_2025_UPPER : ℝ := 2030

/-- The DEG2RAD macro from geomag.c. -/
def DEG2RAD (deg : ℝ) : ℝ := deg * Real.pi / 180

/-- The RAD2DEG macro from geomag.c. -/
def RAD2DEG (rad : ℝ) : ℝ := rad * 180 / Real.pi

/-- The C library function atan2, in real arithmetic (quadrant-corrected
arctangent; atan2 of (0,0) is 0). -/
def atan2 (yv xv : ℝ) : ℝ :=
  if 0 < xv then Real.arctan (yv / xv)
  else if xv < 0 ∧ 0 ≤ yv then Real.arctan (yv / xv) + Real.pi
  else if xv < 0 ∧ yv < 0 then Real.arctan (yv / xv) - Real.pi
  else if xv = 0 ∧ 0 < yv then Real.pi / 2
  else if xv = 0 ∧ yv < 0 then -(Real.pi / 2)
  else 0

/-- Pointwise update of a one-dimensional array modelled as a function. -/
def upd (f : ℕ → ℝ) (i : ℕ) (v : ℝ) : ℕ → ℝ :=
  fun a => if a = i then v else f a

/-- Pointwise update of a two-dimensional array modelled as a function. -/
def upd2 (f : ℕ → ℕ → ℝ) (i j : ℕ) (v : ℝ) : ℕ → ℕ → ℝ :=
  fun a b => if a = i ∧ b = j then v else f a b

/-- The GeoMag model struct from geomag.h.  The three big coefficient arrays
c, cd, k, the two degree-scalar arrays fn, fm, and the flat array p are kept
as functions from indices. -/
structure GeoMag where
  maxord : ℕ
  size : ℕ
  epoch : ℝ
  model : String
  release_date : String
  c : ℕ → ℕ → ℝ
  cd : ℕ → ℕ → ℝ
  k : ℕ → ℕ → ℝ
  fn : ℕ → ℝ
  fm : ℕ → ℝ
  p : ℕ → ℝ

instance : Inhabited GeoMag :=
  ⟨{ maxord := 0, size := 0, epoch := 0, model := "", release_date := "",
     c := fun _ _ => 0, cd := fun _ _ => 0, k := fun _ _ => 0,
     fn := fun _ => 0, fm := fun _ => 0, p := fun _ => 0 }⟩

/-- The GeoMagResult struct from geomag.h. -/
structure GeoMagResult where
  time : ℝ
  alt : ℝ
  glat : ℝ
  glon : ℝ
  x : ℝ
  y : ℝ
  z : ℝ
  h : ℝ
  f : ℝ
  i : ℝ
  d : ℝ
  gv : ℝ
  in_blackout_zone : Bool
  in_caution_zone : Bool
  is_high_resolution : Bool

/-- The GeoMagUncertainty struct from geomag.h. -/
structure GeoMagUncertainty where
  x : ℝ
  y : ℝ
  z : ℝ
  h : ℝ
  f : ℝ
  i : ℝ
  d : ℝ

/-- One coefficient record (n, m, gnm, hnm, dgnm, dhnm) as scanned by
load_coefficients from the model file. -/
structure Record where
  n : ℤ
  m : ℤ
  gnm : ℝ
  hnm : ℝ
  dgnm : ℝ
  dhnm : ℝ

/-- Load-time failure of load_coefficients on a bad record. -/
inductive LoadError where
  | CorruptRecord
deriving DecidableEq

/-- Return status of geomag_calculate: 0, -1 (time out of model life span),
-2 (blackout zone) and -3 (caution zone). -/
inductive CalcCode where
  | ok
  | timeOutOfRange
  | blackoutZone
  | cautionZone
deriving DecidableEq

/-- Evaluation-time failure of geomag_calculate_uncertainty. -/
inductive UncertaintyError where
  | NoUncertaintyModel
deriving DecidableEq

/-- The record-reading while loop of load_coefficients (geomag.c lines
54-86): stop at the 9999 end marker, stop without error when m exceeds
maxord, reject m > n, m < 0 and indices beyond the table bound as corrupt,
store gnm/dgnm at [m][n] and, for m different from 0, hnm/dhnm at [n][m-1]. -/
def load_read (size maxord : ℕ) :
    List Record → (ℕ → ℕ → ℝ) → (ℕ → ℕ → ℝ) →
    Except LoadError ((ℕ → ℕ → ℝ) × (ℕ → ℕ → ℝ))
  | [], c, cd => .ok (c, cd)
  | r :: rest, c, cd =>
    if r.n = 9999 then .ok (c, cd)
    else if (maxord : ℤ) < r.m then .ok (c, cd)
    else if r.n < r.m ∨ r.m < 0 ∨ (size : ℤ) ≤ r.n ∨ (size : ℤ) ≤ r.m then
      .error .CorruptRecord
    else if r.m ≤ r.n then
      let n := r.n.toNat
      let m := r.m.toNat
      let c1 := upd2 c m n r.gnm
      let cd1 := upd2 cd m n r.dgnm
      let c2 := if r.m ≠ 0 then upd2 c1 n (m - 1) r.hnm else c1
      let cd2 := if r.m ≠ 0 then upd2 cd1 n (m - 1) r.dhnm else cd1
      load_read size maxord rest c2 cd2
    else
      load_read size maxord rest c cd

/-- State of the Schmidt-normalisation loop in load_coefficients
(geomag.c lines 90-127). -/
structure NormState where
  snorm : ℕ → ℝ
  c : ℕ → ℕ → ℝ
  cd : ℕ → ℕ → ℝ
  k : ℕ → ℕ → ℝ
  fn : ℕ → ℝ
  fm : ℕ → ℝ

/-- Body of the inner while loop of the normalisation (one order m within
degree n); the extra natural number in the state is the variable j. -/
def norm_inner (size n : ℕ) (sj : NormState × ℕ) (m : ℕ) : NormState × ℕ :=
  let s := sj.1
  let j := sj.2
  let k1 := upd2 s.k m n
    ((((n : ℝ) - 1) ^ 2 - (m : ℝ) ^ 2) / ((2 * (n : ℝ) - 1) * (2 * (n : ℝ) - 3)))
  if 0 < m then
    let flnmj := (((n : ℝ) - (m : ℝ) + 1) * (j : ℝ)) / ((n : ℝ) + (m : ℝ))
    let snorm1 := upd s.snorm (n + m * size)
      (s.snorm (n + (m - 1) * size) * Real.sqrt flnmj)
    let c1 := upd2 s.c n (m - 1) (snorm1 (n + m * size) * s.c n (m - 1))
    let cd1 := upd2 s.cd n (m - 1) (snorm1 (n + m * size) * s.cd n (m - 1))
    let c2 := upd2 c1 m n (snorm1 (n + m * size) * c1 m n)
    let cd2 := upd2 cd1 m n (snorm1 (n + m * size) * cd1 m n)
    ({ snorm := snorm1, c := c2, cd := cd2, k := k1, fn := s.fn, fm := s.fm }, 1)
  else
    let c1 := upd2 s.c m n (s.snorm (n + m * size) * s.c m n)
    let cd1 := upd2 s.cd m n (s.snorm (n + m * size) * s.cd m n)
    ({ snorm := s.snorm, c := c1, cd := cd1, k := k1, fn := s.fn, fm := s.fm }, j)

/-- Body of the outer for loop of the normalisation (one degree n). -/
def norm_outer (size : ℕ) (s : NormState) (n : ℕ) : NormState :=
  let snorm1 := upd s.snorm n (s.snorm (n - 1) * (2 * (n : ℝ) - 1) / (n : ℝ))
  let s1 : NormState := { s with snorm := snorm1 }
  let s2 := ((List.range (n + 1)).foldl (norm_inner size n) (s1, 2)).1
  { s2 with fn := upd s2.fn n ((n : ℝ) + 1), fm := upd s2.fm n (n : ℝ) }

/-- geomag_init together with load_coefficients: choose maxord from the
resolution flag, read the records, run the Schmidt normalisation for degrees
1..maxord, force k[1][1] to 0 and copy snorm into the model member p. -/
def geomag_init (epoch : ℝ) (model release_date : String)
    (records : List Record) (high_resolution : Bool) :
    Except LoadError GeoMag :=
  let maxord : ℕ := if high_resolution then WMM_SIZE_HIGH_RESOLUTION else WMM_SIZE_STANDARD
  let size := maxord + 1
  match load_read size maxord records (fun _ _ => 0) (fun _ _ => 0) with
  | .error e => .error e
  | .ok ccd =>
    let s0 : NormState :=
      { snorm := fun idx => if idx = 0 then 1 else 0, c := ccd.1, cd := ccd.2,
        k := fun _ _ => 0, fn := fun _ => 0, fm := fun _ => 0 }
    let s := (List.range' 1 maxord).foldl (norm_outer size) s0
    .ok { maxord := maxord, size := size, epoch := epoch, model := model,
          release_date := release_date, c := s.c, cd := s.cd,
          k := upd2 s.k 1 1 0, fn := s.fn, fm := s.fm, p := s.snorm }

/-- Per-call state of the main computation loop of geomag_calculate:
the Legendre table p (the member of the model struct, overwritten in
place), the derivative table dp, the pole fallback array pp, the
time-adjusted coefficients tc, the radial weight ar and the accumulators
br, bt, bp, bpp. -/
structure CalcState where
  p : ℕ → ℝ
  dp : ℕ → ℕ → ℝ
  pp : ℕ → ℝ
  tc : ℕ → ℕ → ℝ
  ar : ℝ
  br : ℝ
  bt : ℝ
  bp : ℝ
  bpp : ℝ

/-- Body of the inner while loop of geomag_calculate (geomag.c lines
238-294): Legendre recursion, time adjustment of the Gauss coefficients,
accumulation of the three spherical components and the pole special case. -/
def calc_inner (g : GeoMag) (dt ct st : ℝ) (sp cp : ℕ → ℝ) (n : ℕ)
    (s : CalcState) (m : ℕ) : CalcState :=
  let size := g.size
  let pdp : (ℕ → ℝ) × (ℕ → ℕ → ℝ) :=
    if n = m then
      let p1 := upd s.p (n + m * size) (st * s.p (n - 1 + (m - 1) * size))
      (p1, upd2 s.dp m n
        (st * s.dp (m - 1) (n - 1) + ct * p1 (n - 1 + (m - 1) * size)))
    else if n = 1 ∧ m = 0 then
      let p1 := upd s.p (n + m * size) (ct * s.p (n - 1 + m * size))
      (p1, upd2 s.dp m n (ct * s.dp m (n - 1) - st * p1 (n - 1 + m * size)))
    else if 1 < n ∧ n ≠ m then
      let p0 := if n - 2 < m then upd s.p (n - 2 + m * size) 0 else s.p
      let dp0 := if n - 2 < m then upd2 s.dp m (n - 2) 0 else s.dp
      let p1 := upd p0 (n + m * size)
        (ct * p0 (n - 1 + m * size) - g.k m n * p0 (n - 2 + m * size))
      (p1, upd2 dp0 m n
        (ct * dp0 m (n - 1) - st * p1 (n - 1 + m * size) - g.k m n * dp0 m (n - 2)))
    else (s.p, s.dp)
  let p1 := pdp.1
  let dp1 := pdp.2
  let tc1 := upd2 s.tc m n (g.c m n + dt * g.cd m n)
  let tc2 := if m ≠ 0 then upd2 tc1 n (m - 1) (g.c n (m - 1) + dt * g.cd n (m - 1)) else tc1
  let par := s.ar * p1 (n + m * size)
  let temp1 := if m = 0 then tc2 m n * cp m else tc2 m n * cp m + tc2 n (m - 1) * sp m
  let temp2 := if m = 0 then tc2 m n * sp m else tc2 m n * sp m - tc2 n (m - 1) * cp m
  let ppb : (ℕ → ℝ) × ℝ :=
    if st = 0 ∧ m = 1 then
      let ppv := if n = 1 then s.pp (n - 1) else ct * s.pp (n - 1) - g.k m n * s.pp (n - 2)
      (upd s.pp n ppv, s.bpp + g.fm m * temp2 * (s.ar * ppv))
    else (s.pp, s.bpp)
  { p := p1, dp := dp1, pp := ppb.1, tc := tc2, ar := s.ar,
    br := s.br + g.fn n * temp1 * par,
    bt := s.bt - s.ar * temp1 * dp1 m n,
    bp := s.bp + g.fm m * temp2 * par,
    bpp := ppb.2 }

/-- Body of the outer for loop of geomag_calculate over the degree n:
multiply ar by aor once, then run the orders m = 0..n. -/
def calc_outer (g : GeoMag) (dt ct st aor : ℝ) (sp cp : ℕ → ℝ)
    (s : CalcState) (n : ℕ) : CalcState :=
  (List.range (n + 1)).foldl (calc_inner g dt ct st sp cp n) { s with ar := s.ar * aor }

/-- The whole main computation loop of geomag_calculate for degrees
n = 1..maxord, started from the model Legendre table p, dp[0][0] = 0,
pp[0] = 1, ar = aor * aor and zero accumulators. -/
def calc_loop (g : GeoMag) (dt ct st aor : ℝ) (sp cp : ℕ → ℝ) : CalcState :=
  (List.range' 1 g.maxord).foldl (calc_outer g dt ct st aor sp cp)
    { p := g.p, dp := fun _ _ => 0, pp := fun idx => if idx = 0 then 1 else 0,
      tc := fun _ _ => 0, ar := aor * aor, br := 0, bt := 0, bp := 0, bpp := 0 }

/-- Body of the longitude-multiple loop of geomag_calculate (lines 222-225). -/
def spcp_step (spcp : (ℕ → ℝ) × (ℕ → ℝ)) (m : ℕ) : (ℕ → ℝ) × (ℕ → ℝ) :=
  let sp := spcp.1
  let cp := spcp.2
  let sp1 := upd sp m (sp 1 * cp (m - 1) + cp 1 * sp (m - 1))
  (sp1, upd cp m (cp 1 * cp (m - 1) - sp1 1 * sp1 (m - 1)))

/-- The grid-variation computation of geomag_calculate (lines 314-332) as a
function of the already-computed declination dDeg and the inputs glat, glon:
quadrant-dependent combination of declination and longitude followed by a
single plus-or-minus 360 adjustment; -999 when the latitude magnitude is
below 55 degrees. -/
def gvCalc (dDeg glat glon : ℝ) : ℝ :=
  if 55 ≤ |glat| then
    let gv1 :=
      if 0 < glat ∧ 0 ≤ glon then dDeg - glon
      else if 0 < glat ∧ glon < 0 then dDeg + |glon|
      else if glat < 0 ∧ 0 ≤ glon then dDeg + glon
      else if glat < 0 ∧ glon < 0 then dDeg - |glon|
      else -999
    if 180 < gv1 then gv1 - 360 else if gv1 < -180 then gv1 + 360 else gv1
  else -999

/-- Everything geomag_calculate does after the main loop (geomag.c lines
297-355): pole division of bp, rotation to geodetic components, derivation
of f, d, i, the grid variation, the trigonometric re-projection of x, y, z,
h, and the blackout/caution zone check.  The first component of the output
is the model struct, whose member p was overwritten by the loop. -/
def calc_post (g : GeoMag) (glat glon : ℝ) (raise_in_warning_zone : Bool)
    (res1 : GeoMagResult) (s : CalcState) (st ca sa : ℝ) :
    GeoMag × GeoMagResult × CalcCode :=
  let bp := if st = 0 then s.bpp else s.bp / st
  let bx := -s.bt * ca - s.br * sa
  let byv := bp
  let bz := s.bt * sa - s.br * ca
  let bh := Real.sqrt (bx * bx + byv * byv)
  let fv := Real.sqrt (bh * bh + bz * bz)
  let dDeg := RAD2DEG (atan2 byv bx)
  let iDeg := RAD2DEG (atan2 bz bh)
  let gv := gvCalc dDeg glat glon
  let xv := fv * Real.cos (DEG2RAD dDeg) * Real.cos (DEG2RAD iDeg)
  let yv := fv * Real.cos (DEG2RAD iDeg) * Real.sin (DEG2RAD dDeg)
  let zv := fv * Real.sin (DEG2RAD iDeg)
  let hv := fv * Real.cos (DEG2RAD iDeg)
  let g1 : GeoMag := { g with p := s.p }
  let res2 : GeoMagResult :=
    { res1 with x := xv, y := yv, z := zv, h := hv, f := fv, i := iDeg, d := dDeg, gv := gv }
  if hv < BLACKOUT_ZONE then
    let res3 := { res2 with in_blackout_zone := true }
    if raise_in_warning_zone then (g1, res3, .blackoutZone) else (g1, res3, .ok)
  else if hv < CAUTION_ZONE then
    let res3 := { res2 with in_caution_zone := true }
    if raise_in_warning_zone then (g1, res3, .cautionZone) else (g1, res3, .ok)
  else (g1, res2, .ok)

/-- geomag_calculate after a passed date check (geomag.c lines 196-355):
trigonometric setup, geodetic-to-spherical conversion, longitude multiples,
the main loop and the post-processing. -/
def calc_main (g : GeoMag) (glat glon alt dt : ℝ) (raise_in_warning_zone : Bool)
    (res1 : GeoMagResult) : GeoMag × GeoMagResult × CalcCode :=
  let rlon := DEG2RAD glon
  let rlat := DEG2RAD glat
  let srlon := Real.sin rlon
  let srlat := Real.sin rlat
  let crlon := Real.cos rlon
  let crlat := Real.cos rlat
  let srlat2 := srlat * srlat
  let crlat2 := crlat * crlat
  let a2 := WGS84_A * WGS84_A
  let b2 := WGS84_B * WGS84_B
  let c2 := a2 - b2
  let a4 := a2 * a2
  let b4 := b2 * b2
  let c4 := a4 - b4
  let q := Real.sqrt (a2 - c2 * srlat2)
  let q1 := alt * q
  let q2 := ((q1 + a2) / (q1 + b2)) * ((q1 + a2) / (q1 + b2))
  let ct := srlat / Real.sqrt (q2 * crlat2 + srlat2)
  let st := Real.sqrt (1 - ct * ct)
  let r2v := alt * alt + 2 * q1 + (a4 - c4 * srlat2) / (q * q)
  let rv := Real.sqrt r2v
  let dv := Real.sqrt (a2 * crlat2 + b2 * srlat2)
  let ca := (alt + dv) / rv
  let sa := c2 * crlat * srlat / (rv * dv)
  let sp0 := upd (upd (fun _ => 0) 0 0) 1 srlon
  let cp0 := upd (upd (fun _ => 0) 0 1) 1 crlon
  let spcp := (List.range' 2 (g.maxord - 1)).foldl spcp_step (sp0, cp0)
  let sp := spcp.1
  let cp := spcp.2
  let aor := WGS84_RE / rv
  let s := calc_loop g dt ct st aor sp cp
  calc_post g glat glon raise_in_warning_zone res1 s st ca sa

/-- geomag_calculate (geomag.c lines 149-356).  The struct that the caller
passes for the result is res0; the function first writes the echoed inputs
and the three flags into it, then checks the date range, and on success runs
the field synthesis.  The returned triple is the (possibly p-mutated) model,
the final contents of the result struct, and the return code. -/
def geomag_calculate (g : GeoMag) (glat glon alt time : ℝ)
    (allow_date_outside_lifespan raise_in_warning_zone : Bool)
    (res0 : GeoMagResult) : GeoMag × GeoMagResult × CalcCode :=
  let res1 : GeoMagResult :=
    { res0 with
      time := time, alt := alt, glat := glat, glon := glon,
      in_blackout_zone := false, in_caution_zone := false,
      is_high_resolution := g.maxord == WMM_SIZE_HIGH_RESOLUTION }
  let dt := time - g.epoch
  if allow_date_outside_lifespan = false ∧ (dt < 0 ∨ 5 < dt) then
    (g, res1, .timeOutOfRange)
  else
    calc_main g glat glon alt dt raise_in_warning_zone res1

/-- geomag_calculate_uncertainty (geomag.c lines 358-408): epoch-window
lookup of the error-model constants and the closed-form declination
uncertainty. -/
def geomag_calculate_uncertainty (result : GeoMagResult) :
    Except UncertaintyError GeoMagUncertainty :=
  if WMM_MODEL_2025_LOWER ≤ result.time ∧ result.time ≤ WMM_MODEL_2025_UPPER then
    if result.is_high_resolution then
      .ok { x := 135, y := 85, z := 134, h := 130, f := 134, i := 0.19,
            d := Real.sqrt (0.25 * 0.25 + (5205 / result.h) * (5205 / result.h)) }
    else
      .ok { x := 137, y := 89, z := 141, h := 133, f := 138, i := 0.20,
            d := Real.sqrt (0.26 * 0.26 + (5417 / result.h) * (5417 / result.h)) }
  else if WMM_MODEL_2020_LOWER ≤ result.time ∧ result.time ≤ WMM_MODEL_2020_UPPER then
    .ok { x := 131, y := 94, z := 157, h := 128, f := 148, i := 0.21,
          d := Real.sqrt (0.26 * 0.26 + (5625 / result.h) * (5625 / result.h)) }
  else if WMM_MODEL_2015_LOWER ≤ result.time ∧ result.time < WMM_MODEL_2015_UPPER then
    .ok { x := 138, y := 89, z := 165, h := 133, f := 152, i := 0.22,
          d := Real.sqrt (0.23 * 0.23 + (5430 / result.h) * (5430 / result.h)) }
  else
    .error .NoUncertaintyModel

/-! ### Generic helpers about the array model and loops -/

theorem upd_same (f : ℕ → ℝ) (i : ℕ) (v : ℝ) : upd f i v i = v := by
  simp [upd]

theorem upd_ne (f : ℕ → ℝ) (i a : ℕ) (v : ℝ) (h : a ≠ i) : upd f i v a = f a := by
  simp [upd, h]

theorem upd2_same (f : ℕ → ℕ → ℝ) (i j : ℕ) (v : ℝ) : upd2 f i j v i j = v := by
  simp [upd2]

theorem upd2_ne (f : ℕ → ℕ → ℝ) (i j a b : ℕ) (v : ℝ) (h : ¬(a = i ∧ b = j)) :
    upd2 f i j v a b = f a b := by
  simp [upd2, h]

/-- A predicate preserved by every step of a left fold holds of the result. -/
theorem foldl_pres {σ α : Type} {f : σ → α → σ} {P : σ → Prop} :
    ∀ (l : List α) (s : σ), P s → (∀ s' a, a ∈ l → P s' → P (f s' a)) →
      P (l.foldl f s) := by
  intro l
  induction l with
  | nil => intro s hs _; exact hs
  | cons a tl ih =>
    intro s hs hstep
    exact ih (f s a) (hstep s a (List.mem_cons_self a tl) hs)
      fun s' b hb hp => hstep s' b (List.mem_cons_of_mem a hb) hp

/-! ### Facts about the embedded atan2 and the angle-unit conversions -/

theorem atan2_zero_zero : atan2 0 0 = 0 := by
  simp [atan2]

theorem DEG2RAD_RAD2DEG (x : ℝ) : DEG2RAD (RAD2DEG x) = x := by
  unfold DEG2RAD RAD2DEG
  field_simp

theorem DEG2RAD_zero : DEG2RAD 0 = 0 := by
  simp [DEG2RAD]

/-- With a nonnegative second argument atan2 stays within
[-pi/2, pi/2], the closure of the arctan range. -/
theorem atan2_mem_of_nonneg (yv xv : ℝ) (hx : 0 ≤ xv) :
    -(Real.pi / 2) ≤ atan2 yv xv ∧ atan2 yv xv ≤ Real.pi / 2 := by
  have hpi : 0 < Real.pi := Real.pi_pos
  unfold atan2
  split_ifs with h1 h2 h3 h4 h5
  · exact ⟨le_of_lt (Real.neg_pi_div_two_lt_arctan _), le_of_lt (Real.arctan_lt_pi_div_two _)⟩
  · exact absurd h2.1 (not_lt.mpr hx)
  · exact absurd h3.1 (not_lt.mpr hx)
  · constructor <;> nlinarith
  · constructor <;> nlinarith
  · constructor <;> nlinarith

/-! ### A concrete loaded model: the record stream is empty, so every Gauss
coefficient is zero, and only the normalisation scalars are nontrivial. -/

/-- An all-zero caller result struct, used as the prior contents of the
result argument in concrete evaluations. -/
def R0 : GeoMagResult :=
  { time := 0, alt := 0, glat := 0, glon := 0, x := 0, y := 0, z := 0, h := 0,
    f := 0, i := 0, d := 0, gv := 0, in_blackout_zone := false,
    in_caution_zone := false, is_high_resolution := false }

/-- The initial normalisation state of geomag_init for the empty stream. -/
def normS0 : NormState :=
  { snorm := fun idx => if idx = 0 then 1 else 0, c := fun _ _ => 0,
    cd := fun _ _ => 0, k := fun _ _ => 0, fn := fun _ => 0, fm := fun _ => 0 }

/-- The final normalisation state of geomag_init for the empty stream at
standard resolution. -/
def normS : NormState := (List.range' 1 12).foldl (norm_outer 13) normS0

/-- The standard-resolution model produced by geomag_init from an empty
record stream with epoch 2025. -/
def M0 : GeoMag :=
  { maxord := 12, size := 13, epoch := 2025, model := "WMM-2025",
    release_date := "11/13/2024", c := normS.c, cd := normS.cd,
    k := upd2 normS.k 1 1 0, fn := normS.fn, fm := normS.fm, p := normS.snorm }

theorem geomag_init_empty :
    geomag_init 2025 "WMM-2025" "11/13/2024" [] false = .ok M0 := rfl

theorem M0_maxord : M0.maxord = 12 := rfl

theorem M0_size : M0.size = 13 := rfl

theorem M0_epoch : M0.epoch = 2025 := rfl

theorem M0_c_def : M0.c = normS.c := rfl

theorem M0_cd_def : M0.cd = normS.cd := rfl

theorem M0_p_def : M0.p = normS.snorm := rfl

/-- Both coefficient tables of a normalisation state vanish everywhere. -/
def ZeroCoef (s : NormState) : Prop :=
  (∀ i j, s.c i j = 0) ∧ (∀ i j, s.cd i j = 0)

theorem norm_inner_zeroCoef (size n m : ℕ) (sj : NormState × ℕ)
    (h : ZeroCoef sj.1) : ZeroCoef (norm_inner size n sj m).1 := by
  obtain ⟨hc, hcd⟩ := h
  simp only [norm_inner]
  split_ifs with hm
  · refine ⟨fun i j => ?_, fun i j => ?_⟩ <;>
    · simp only [upd2]
      split_ifs <;> simp [hc, hcd]
  · refine ⟨fun i j => ?_, fun i j => ?_⟩ <;>
    · simp only [upd2]
      split_ifs <;> simp [hc, hcd]

theorem norm_outer_zeroCoef (size : ℕ) (s : NormState) (n : ℕ)
    (h : ZeroCoef s) : ZeroCoef (norm_outer size s n) := by
  simp only [norm_outer]
  have h2 : ZeroCoef (((List.range (n + 1)).foldl (norm_inner size n)
      ({ s with snorm := upd s.snorm n (s.snorm (n - 1) * (2 * (n : ℝ) - 1) / (n : ℝ)) }, 2)).1) :=
    foldl_pres (P := fun sj => ZeroCoef sj.1) _ _ h
      fun sj m _ hp => norm_inner_zeroCoef size n m sj hp
  exact h2

theorem M0_c (i j : ℕ) : M0.c i j = 0 := by
  rw [M0_c_def]
  unfold normS
  exact (foldl_pres (P := ZeroCoef) _ _ ⟨fun _ _ => rfl, fun _ _ => rfl⟩
    fun s' a _ hp => norm_outer_zeroCoef 13 s' a hp).1 i j

theorem M0_cd (i j : ℕ) : M0.cd i j = 0 := by
  rw [M0_cd_def]
  unfold normS
  exact (foldl_pres (P := ZeroCoef) _ _ ⟨fun _ _ => rfl, fun _ _ => rfl⟩
    fun s' a _ hp => norm_outer_zeroCoef 13 s' a hp).2 i j

theorem norm_inner_snorm_one (n m : ℕ) (sj : NormState × ℕ) :
    (norm_inner 13 n sj m).1.snorm 1 = sj.1.snorm 1 := by
  simp only [norm_inner]
  split_ifs with hm
  · exact upd_ne _ _ _ _ (by omega)
  · rfl

theorem norm_outer_snorm_one (s : NormState) (n : ℕ) (hn : 2 ≤ n) :
    (norm_outer 13 s n).snorm 1 = s.snorm 1 := by
  simp only [norm_outer]
  have h2 := foldl_pres (P := fun sj : NormState × ℕ => sj.1.snorm 1 = s.snorm 1)
    (List.range (n + 1))
    (({ s with snorm := upd s.snorm n (s.snorm (n - 1) * (2 * (n : ℝ) - 1) / (n : ℝ)) }, 2))
    (upd_ne _ _ _ _ (by omega))
    fun sj m _ hp => (norm_inner_snorm_one n m sj).trans hp
  exact h2

theorem norm_outer_one_snorm (s : NormState) (hs : s.snorm 0 = 1) :
    (norm_outer 13 s 1).snorm 1 = 1 := by
  simp only [norm_outer]
  have hr : List.range 2 = [0, 1] := rfl
  rw [hr, List.foldl_cons, List.foldl_cons, List.foldl_nil]
  rw [norm_inner_snorm_one, norm_inner_snorm_one]
  simp only [upd_same]
  rw [hs]
  norm_num

theorem M0_p_one : M0.p 1 = 1 := by
  rw [M0_p_def]
  unfold normS
  have h12 : List.range' 1 12 = 1 :: List.range' 2 11 := rfl
  rw [h12, List.foldl_cons]
  refine foldl_pres (P := fun s : NormState => s.snorm 1 = 1) _ _
    (norm_outer_one_snorm normS0 rfl) fun s' a ha hp => ?_
  have ha2 : 2 ≤ a := by
    have h := List.mem_range'_1.mp ha
    omega
  show (norm_outer 13 s' a).snorm 1 = 1
  rw [norm_outer_snorm_one s' a ha2]
  exact hp

/-! ### Post-processing lemmas -/

theorem calc_post_fst (g : GeoMag) (glat glon : ℝ) (rz : Bool) (res1 : GeoMagResult)
    (s : CalcState) (st ca sa : ℝ) :
    (calc_post g glat glon rz res1 s st ca sa).1 = { g with p := s.p } := by
  simp only [calc_post]
  split_ifs <;> rfl

theorem calc_post_code_advisory (g : GeoMag) (glat glon : ℝ) (res1 : GeoMagResult)
    (s : CalcState) (st ca sa : ℝ) :
    (calc_post g glat glon false res1 s st ca sa).2.2 = CalcCode.ok := by
  simp only [calc_post]
  split_ifs <;> simp_all

theorem calc_post_code_ne_time (g : GeoMag) (glat glon : ℝ) (rz : Bool)
    (res1 : GeoMagResult) (s : CalcState) (st ca sa : ℝ) :
    (calc_post g glat glon rz res1 s st ca sa).2.2 ≠ CalcCode.timeOutOfRange := by
  simp only [calc_post]
  split_ifs <;> simp

theorem calc_post_blackout_flag (g : GeoMag) (glat glon : ℝ) (rz : Bool)
    (res1 : GeoMagResult) (s : CalcState) (st ca sa : ℝ)
    (hb : res1.in_blackout_zone = false) :
    ((calc_post g glat glon rz res1 s st ca sa).2.1.in_blackout_zone = true ↔
      (calc_post g glat glon rz res1 s st ca sa).2.1.h < 2000) := by
  simp only [calc_post, BLACKOUT_ZONE, CAUTION_ZONE]
  split_ifs <;> simp_all

theorem calc_post_caution_flag (g : GeoMag) (glat glon : ℝ) (rz : Bool)
    (res1 : GeoMagResult) (s : CalcState) (st ca sa : ℝ)
    (hcz : res1.in_caution_zone = false) :
    ((calc_post g glat glon rz res1 s st ca sa).2.1.in_caution_zone = true ↔
      (2000 ≤ (calc_post g glat glon rz res1 s st ca sa).2.1.h ∧
        (calc_post g glat glon rz res1 s st ca sa).2.1.h < 6000)) := by
  simp only [calc_post, BLACKOUT_ZONE, CAUTION_ZONE]
  split_ifs with h1 h2 <;> simp_all

theorem calc_post_codes (g : GeoMag) (glat glon : ℝ) (res1 : GeoMagResult)
    (s : CalcState) (st ca sa : ℝ) :
    ((calc_post g glat glon true res1 s st ca sa).2.2 = CalcCode.blackoutZone ↔
      (calc_post g glat glon true res1 s st ca sa).2.1.h < 2000) ∧
    ((calc_post g glat glon true res1 s st ca sa).2.2 = CalcCode.cautionZone ↔
      (2000 ≤ (calc_post g glat glon true res1 s st ca sa).2.1.h ∧
        (calc_post g glat glon true res1 s st ca sa).2.1.h < 6000)) := by
  simp only [calc_post, BLACKOUT_ZONE, CAUTION_ZONE]
  split_ifs with h1 h2 <;> constructor <;> simp_all

/-- The trigonometric re-projection of step 8 is self-consistent: given a
nonnegative total intensity and an inclination angle with nonnegative
cosine, the recomputed components satisfy the two root identities. -/
theorem reproject_core (fv dang ang : ℝ) (hf : 0 ≤ fv) (hcos : 0 ≤ Real.cos ang) :
    fv = Real.sqrt ((fv * Real.cos dang * Real.cos ang) ^ 2 +
      (fv * Real.cos ang * Real.sin dang) ^ 2 + (fv * Real.sin ang) ^ 2) ∧
    fv * Real.cos ang = Real.sqrt ((fv * Real.cos dang * Real.cos ang) ^ 2 +
      (fv * Real.cos ang * Real.sin dang) ^ 2) := by
  have hd := Real.sin_sq_add_cos_sq dang
  have ha := Real.sin_sq_add_cos_sq ang
  constructor
  · have h1 : (fv * Real.cos dang * Real.cos ang) ^ 2 +
        (fv * Real.cos ang * Real.sin dang) ^ 2 + (fv * Real.sin ang) ^ 2 = fv ^ 2 := by
      linear_combination (fv ^ 2 * Real.cos ang ^ 2) * hd + fv ^ 2 * ha
    rw [h1, Real.sqrt_sq hf]
  · have h2 : (fv * Real.cos dang * Real.cos ang) ^ 2 +
        (fv * Real.cos ang * Real.sin dang) ^ 2 = (fv * Real.cos ang) ^ 2 := by
      linear_combination (fv ^ 2 * Real.cos ang ^ 2) * hd
    rw [h2, Real.sqrt_sq (mul_nonneg hf hcos)]

theorem calc_post_selfcons (g : GeoMag) (glat glon : ℝ) (rz : Bool)
    (res1 : GeoMagResult) (s : CalcState) (st ca sa : ℝ) :
    ((calc_post g glat glon rz res1 s st ca sa).2.1.f =
      Real.sqrt ((calc_post g glat glon rz res1 s st ca sa).2.1.x ^ 2 +
        (calc_post g glat glon rz res1 s st ca sa).2.1.y ^ 2 +
        (calc_post g glat glon rz res1 s st ca sa).2.1.z ^ 2)) ∧
    ((calc_post g glat glon rz res1 s st ca sa).2.1.h =
      Real.sqrt ((calc_post g glat glon rz res1 s st ca sa).2.1.x ^ 2 +
        (calc_post g glat glon rz res1 s st ca sa).2.1.y ^ 2)) := by
  have key : ∀ bx byv bz : ℝ,
      (Real.sqrt (Real.sqrt (bx * bx + byv * byv) * Real.sqrt (bx * bx + byv * byv) + bz * bz) =
        Real.sqrt ((Real.sqrt (Real.sqrt (bx * bx + byv * byv) * Real.sqrt (bx * bx + byv * byv) + bz * bz) *
            Real.cos (DEG2RAD (RAD2DEG (atan2 byv bx))) *
            Real.cos (DEG2RAD (RAD2DEG (atan2 bz (Real.sqrt (bx * bx + byv * byv)))))) ^ 2 +
          (Real.sqrt (Real.sqrt (bx * bx + byv * byv) * Real.sqrt (bx * bx + byv * byv) + bz * bz) *
            Real.cos (DEG2RAD (RAD2DEG (atan2 bz (Real.sqrt (bx * bx + byv * byv))))) *
            Real.sin (DEG2RAD (RAD2DEG (atan2 byv bx)))) ^ 2 +
          (Real.sqrt (Real.sqrt (bx * bx + byv * byv) * Real.sqrt (bx * bx + byv * byv) + bz * bz) *
            Real.sin (DEG2RAD (RAD2DEG (atan2 bz (Real.sqrt (bx * bx + byv * byv)))))) ^ 2)) ∧
      (Real.sqrt (Real.sqrt (bx * bx + byv * byv) * Real.sqrt (bx * bx + byv * byv) + bz * bz) *
          Real.cos (DEG2RAD (RAD2DEG (atan2 bz (Real.sqrt (bx * bx + byv * byv))))) =
        Real.sqrt ((Real.sqrt (Real.sqrt (bx * bx + byv * byv) * Real.sqrt (bx * bx + byv * byv) + bz * bz) *
            Real.cos (DEG2RAD (RAD2DEG (atan2 byv bx))) *
            Real.cos (DEG2RAD (RAD2DEG (atan2 bz (Real.sqrt (bx * bx + byv * byv)))))) ^ 2 +
          (Real.sqrt (Real.sqrt (bx * bx + byv * byv) * Real.sqrt (bx * bx + byv * byv) + bz * bz) *
            Real.cos (DEG2RAD (RAD2DEG (atan2 bz (Real.sqrt (bx * bx + byv * byv))))) *
            Real.sin (DEG2RAD (RAD2DEG (atan2 byv bx)))) ^ 2)) := by
    intro bx byv bz
    have hbh : (0:ℝ) ≤ Real.sqrt (bx * bx + byv * byv) := Real.sqrt_nonneg _
    have hmem := atan2_mem_of_nonneg bz (Real.sqrt (bx * bx + byv * byv)) hbh
    have hcos : 0 ≤ Real.cos (atan2 bz (Real.sqrt (bx * bx + byv * byv))) :=
      Real.cos_nonneg_of_mem_Icc ⟨hmem.1, hmem.2⟩
    have hf : (0:ℝ) ≤ Real.sqrt (Real.sqrt (bx * bx + byv * byv) *
        Real.sqrt (bx * bx + byv * byv) + bz * bz) := Real.sqrt_nonneg _
    simp only [DEG2RAD_RAD2DEG]
    exact reproject_core _ _ _ hf hcos
  simp only [calc_post]
  split_ifs <;> exact key _ _ _

/-! ### Main-loop invariants for the concrete model M0 -/

/-- No iteration of the main loop other than (n, m) = (1, 0) writes the
Legendre table at flat index 1 (the entry for degree 1, order 0). -/
theorem calc_inner_p_one (dt ct st : ℝ) (sp cp : ℕ → ℝ) (n m : ℕ) (s : CalcState)
    (_hn : 1 ≤ n) (_hm : m ≤ n) (hnot : ¬(n = 1 ∧ m = 0)) :
    (calc_inner M0 dt ct st sp cp n s m).p 1 = s.p 1 := by
  simp only [calc_inner, M0_size]
  by_cases h1 : n = m
  · rw [if_pos h1]
    exact upd_ne _ _ _ _ (by omega)
  · rw [if_neg h1]
    by_cases h2 : n = 1 ∧ m = 0
    · exact absurd h2 hnot
    · rw [if_neg h2]
      by_cases h3 : 1 < n ∧ n ≠ m
      · rw [if_pos h3]
        by_cases h4 : n - 2 < m
        · simp only [if_pos h4]
          rw [upd_ne _ _ _ _ (by omega)]
          exact upd_ne _ _ _ _ (by omega)
        · simp only [if_neg h4]
          exact upd_ne _ _ _ _ (by omega)
      · rw [if_neg h3]

theorem calc_outer_p_one (dt ct st aor : ℝ) (sp cp : ℕ → ℝ) (n : ℕ) (s : CalcState)
    (hn : 2 ≤ n) :
    (calc_outer M0 dt ct st aor sp cp s n).p 1 = s.p 1 := by
  simp only [calc_outer]
  exact foldl_pres (P := fun s' : CalcState => s'.p 1 = s.p 1) _ _ rfl
    fun s' m hmem hp => by
      have hmlt : m ≤ n := by
        have := List.mem_range.mp hmem
        omega
      show (calc_inner M0 dt ct st sp cp n s' m).p 1 = s.p 1
      rw [calc_inner_p_one dt ct st sp cp n m s' (by omega) hmlt (by omega)]
      exact hp

/-- The loop iteration at degree 1, order 0 writes ct times p[0] into flat
index 1 of the Legendre table; with ct = 0 that entry becomes 0. -/
theorem calc_inner_one_zero (dt st : ℝ) (sp cp : ℕ → ℝ) (s : CalcState) :
    (calc_inner M0 dt 0 st sp cp 1 s 0).p 1 = 0 := by
  simp only [calc_inner, M0_size]
  norm_num [upd]

theorem calc_loop_p_one (dt st aor : ℝ) (sp cp : ℕ → ℝ) :
    (calc_loop M0 dt 0 st aor sp cp).p 1 = 0 := by
  simp only [calc_loop, M0_maxord]
  have h12 : List.range' 1 12 = 1 :: List.range' 2 11 := rfl
  rw [h12, List.foldl_cons]
  refine foldl_pres (P := fun s' : CalcState => s'.p 1 = 0) _ _ ?_ ?_
  · simp only [calc_outer]
    have hr : List.range 2 = [0, 1] := rfl
    rw [hr, List.foldl_cons, List.foldl_cons, List.foldl_nil]
    rw [calc_inner_p_one dt 0 st sp cp 1 1 _ (by omega) (by omega) (by omega)]
    exact calc_inner_one_zero dt st sp cp _
  · intro s' a ha hp
    have ha2 : 2 ≤ a := by
      have := List.mem_range'_1.mp ha
      omega
    show (calc_outer M0 dt 0 st aor sp cp s' a).p 1 = 0
    rw [calc_outer_p_one dt 0 st aor sp cp a s' ha2]
    exact hp

/-- All four field accumulators of a loop state vanish. -/
def ZeroAcc (s : CalcState) : Prop :=
  s.br = 0 ∧ s.bt = 0 ∧ s.bp = 0 ∧ s.bpp = 0

/-- Because every Gauss coefficient of M0 is zero, each time-adjusted
coefficient is zero, both accumulation weights vanish and the loop body
preserves zero accumulators. -/
theorem calc_inner_zeroAcc (dt ct st : ℝ) (sp cp : ℕ → ℝ) (n m : ℕ) (s : CalcState)
    (h : ZeroAcc s) : ZeroAcc (calc_inner M0 dt ct st sp cp n s m) := by
  obtain ⟨h1, h2, h3, h4⟩ := h
  simp only [calc_inner, M0_size]
  set TC : ℕ → ℕ → ℝ :=
    if m ≠ 0 then
      upd2 (upd2 s.tc m n (M0.c m n + dt * M0.cd m n)) n (m - 1)
        (M0.c n (m - 1) + dt * M0.cd n (m - 1))
    else upd2 s.tc m n (M0.c m n + dt * M0.cd m n) with hTC
  have hTCmn : TC m n = 0 := by
    rw [hTC]
    split_ifs with hm
    · rw [upd2_ne _ _ _ _ _ _ (by omega), upd2_same]
      simp [M0_c, M0_cd]
    · rw [upd2_same]
      simp [M0_c, M0_cd]
  have hTCh : ∀ _ : ¬ m = 0, TC n (m - 1) = 0 := by
    intro hm
    rw [hTC, if_pos hm, upd2_same]
    simp [M0_c, M0_cd]
  have htemp1 : (if m = 0 then TC m n * cp m else TC m n * cp m + TC n (m - 1) * sp m) = 0 := by
    split_ifs with hm
    · rw [hTCmn]
      ring
    · rw [hTCmn, hTCh hm]
      ring
  have htemp2 : (if m = 0 then TC m n * sp m else TC m n * sp m - TC n (m - 1) * cp m) = 0 := by
    split_ifs with hm
    · rw [hTCmn]
      ring
    · rw [hTCmn, hTCh hm]
      ring
  refine ⟨?_, ?_, ?_, ?_⟩
  · show s.br + M0.fn n *
      (if m = 0 then TC m n * cp m else TC m n * cp m + TC n (m - 1) * sp m) * _ = 0
    rw [htemp1, h1]
    ring
  · show s.bt - s.ar *
      (if m = 0 then TC m n * cp m else TC m n * cp m + TC n (m - 1) * sp m) * _ = 0
    rw [htemp1, h2]
    ring
  · show s.bp + M0.fm m *
      (if m = 0 then TC m n * sp m else TC m n * sp m - TC n (m - 1) * cp m) * _ = 0
    rw [htemp2, h3]
    ring
  · show (if st = 0 ∧ m = 1 then _ else (s.pp, s.bpp)).2 = 0
    by_cases hpole : st = 0 ∧ m = 1
    · rw [if_pos hpole]
      show s.bpp + M0.fm m *
        (if m = 0 then TC m n * sp m else TC m n * sp m - TC n (m - 1) * cp m) * _ = 0
      rw [htemp2, h4]
      ring
    · rw [if_neg hpole]
      exact h4

theorem calc_outer_zeroAcc (dt ct st aor : ℝ) (sp cp : ℕ → ℝ) (n : ℕ) (s : CalcState)
    (h : ZeroAcc s) : ZeroAcc (calc_outer M0 dt ct st aor sp cp s n) := by
  simp only [calc_outer]
  exact foldl_pres (P := ZeroAcc) _ _ ⟨h.1, h.2.1, h.2.2.1, h.2.2.2⟩
    fun s' m _ hp => calc_inner_zeroAcc dt ct st sp cp n m s' hp

theorem calc_loop_zeroAcc (dt ct st aor : ℝ) (sp cp : ℕ → ℝ) :
    ZeroAcc (calc_loop M0 dt ct st aor sp cp) := by
  simp only [calc_loop]
  exact foldl_pres (P := ZeroAcc) _ _ ⟨rfl, rfl, rfl, rfl⟩
    fun s' n _ hp => calc_outer_zeroAcc dt ct st aor sp cp n s' hp

/-! ### Decomposition of geomag_calculate -/

/-- calc_main is calc_post applied to the main-loop result; the geodesy
factor ct vanishes at latitude 0 because its numerator is sin 0. -/
theorem calc_main_dest (g : GeoMag) (glat glon alt dt : ℝ) (rz : Bool)
    (res1 : GeoMagResult) :
    ∃ ct st aor sp cp ca sa,
      calc_main g glat glon alt dt rz res1 =
        calc_post g glat glon rz res1 (calc_loop g dt ct st aor sp cp) st ca sa ∧
      (glat = 0 → ct = 0) := by
  simp only [calc_main]
  exact ⟨_, _, _, _, _, _, _, rfl, fun hg => by
    subst hg
    simp [DEG2RAD]⟩

/-- The echoed-input write of geomag_calculate before the date check. -/
def echoed (g : GeoMag) (glat glon alt time : ℝ) (res0 : GeoMagResult) : GeoMagResult :=
  { res0 with
    time := time, alt := alt, glat := glat, glon := glon,
    in_blackout_zone := false, in_caution_zone := false,
    is_high_resolution := g.maxord == WMM_SIZE_HIGH_RESOLUTION }

theorem geomag_calculate_passed (g : GeoMag) (glat glon alt time : ℝ) (aw rz : Bool)
    (res0 : GeoMagResult)
    (hpass : ¬(aw = false ∧ (time - g.epoch < 0 ∨ 5 < time - g.epoch))) :
    geomag_calculate g glat glon alt time aw rz res0 =
      calc_main g glat glon alt (time - g.epoch) rz (echoed g glat glon alt time res0) := by
  simp only [geomag_calculate, echoed]
  rw [if_neg hpass]

theorem geomag_calculate_failed (g : GeoMag) (glat glon alt time : ℝ) (aw rz : Bool)
    (res0 : GeoMagResult)
    (hfail : aw = false ∧ (time - g.epoch < 0 ∨ 5 < time - g.epoch)) :
    geomag_calculate g glat glon alt time aw rz res0 =
      (g, echoed g glat glon alt time res0, CalcCode.timeOutOfRange) := by
  simp only [geomag_calculate, echoed]
  rw [if_pos hfail]

/-- With zero accumulators the post-processing yields the zero field: every
intensity and angle is 0, the grid variation is the formula evaluated at
declination 0, the blackout flag is set, and the code is the blackout error
exactly under the hard-error policy. -/
theorem calc_post_zeroAcc (g : GeoMag) (glat glon : ℝ) (rz : Bool)
    (res1 : GeoMagResult) (s : CalcState) (st ca sa : ℝ) (h : ZeroAcc s) :
    (calc_post g glat glon rz res1 s st ca sa).2.1.h = 0 ∧
    (calc_post g glat glon rz res1 s st ca sa).2.1.d = 0 ∧
    (calc_post g glat glon rz res1 s st ca sa).2.1.f = 0 ∧
    (calc_post g glat glon rz res1 s st ca sa).2.1.x = 0 ∧
    (calc_post g glat glon rz res1 s st ca sa).2.1.y = 0 ∧
    (calc_post g glat glon rz res1 s st ca sa).2.1.z = 0 ∧
    (calc_post g glat glon rz res1 s st ca sa).2.1.i = 0 ∧
    (calc_post g glat glon rz res1 s st ca sa).2.1.gv = gvCalc 0 glat glon ∧
    (calc_post g glat glon rz res1 s st ca sa).2.1.in_blackout_zone = true ∧
    (calc_post g glat glon rz res1 s st ca sa).2.1.in_caution_zone = res1.in_caution_zone ∧
    (calc_post g glat glon rz res1 s st ca sa).2.2 =
      (if rz = true then CalcCode.blackoutZone else CalcCode.ok) := by
  obtain ⟨h1, h2, h3, h4⟩ := h
  simp only [calc_post, h1, h2, h3, h4]
  norm_num [atan2_zero_zero, RAD2DEG, DEG2RAD, BLACKOUT_ZONE]
  cases rz <;> norm_num

/-! ### Concrete evaluations on the empty-coefficient model -/

/-- On M0 every coefficient is zero, so any evaluation at time 2025 (the
epoch) passes the date check and produces the zero field: h = 0, the
blackout flag, grid variation from declination 0, and the blackout error
code exactly under the hard-error policy. -/
theorem M0_eval (glat glon alt : ℝ) (aw rz : Bool) :
    (geomag_calculate M0 glat glon alt 2025 aw rz R0).2.1.h = 0 ∧
    (geomag_calculate M0 glat glon alt 2025 aw rz R0).2.1.gv = gvCalc 0 glat glon ∧
    (geomag_calculate M0 glat glon alt 2025 aw rz R0).2.2 =
      (if rz = true then CalcCode.blackoutZone else CalcCode.ok) := by
  have hpass : ¬(aw = false ∧ ((2025 : ℝ) - M0.epoch < 0 ∨ 5 < (2025 : ℝ) - M0.epoch)) := by
    rw [M0_epoch]
    norm_num
  rw [geomag_calculate_passed M0 glat glon alt 2025 aw rz R0 hpass]
  obtain ⟨ct, st, aor, sp, cp, ca, sa, heq, -⟩ :=
    calc_main_dest M0 glat glon alt (2025 - M0.epoch) rz (echoed M0 glat glon alt 2025 R0)
  rw [heq]
  have hz := calc_loop_zeroAcc (2025 - M0.epoch) ct st aor sp cp
  have hspec := calc_post_zeroAcc M0 glat glon rz (echoed M0 glat glon alt 2025 R0)
    (calc_loop M0 (2025 - M0.epoch) ct st aor sp cp) st ca sa hz
  exact ⟨hspec.1, hspec.2.2.2.2.2.2.2.1, hspec.2.2.2.2.2.2.2.2.2.2⟩

set_option maxRecDepth 4000 in
/-- An evaluation of M0 at latitude 0 overwrites flat index 1 of the
Legendre table in the model struct with 0 (the ct factor vanishes there). -/
theorem M0_eval_p_one (glon alt : ℝ) (aw rz : Bool) :
    ((geomag_calculate M0 0 glon alt 2025 aw rz R0).1).p 1 = 0 := by
  have hpass : ¬(aw = false ∧ ((2025 : ℝ) - M0.epoch < 0 ∨ 5 < (2025 : ℝ) - M0.epoch)) := by
    rw [M0_epoch]
    norm_num
  rw [geomag_calculate_passed M0 0 glon alt 2025 aw rz R0 hpass]
  obtain ⟨ct, st, aor, sp, cp, ca, sa, heq, hct⟩ :=
    calc_main_dest M0 0 glon alt (2025 - M0.epoch) rz (echoed M0 0 glon alt 2025 R0)
  rw [heq, calc_post_fst]
  show (calc_loop M0 (2025 - M0.epoch) ct st aor sp cp).p 1 = 0
  rw [hct rfl]
  exact calc_loop_p_one _ _ _ _ _

/-! ### Grid-variation facts -/

/-- C1 (amended): geomag_calculate leaves every field of the Model except
the Legendre table p unchanged, for all inputs; the p member is used as
per-call scratch and may be overwritten. -/
theorem c1_model_fields_preserved (g : GeoMag) (glat glon alt time : ℝ)
    (aw rz : Bool) (res0 : GeoMagResult) :
    (geomag_calculate g glat glon alt time aw rz res0).1.maxord = g.maxord ∧
    (geomag_calculate g glat glon alt time aw rz res0).1.size = g.size ∧
    (geomag_calculate g glat glon alt time aw rz res0).1.epoch = g.epoch ∧
    (geomag_calculate g glat glon alt time aw rz res0).1.model = g.model ∧
    (geomag_calculate g glat glon alt time aw rz res0).1.release_date = g.release_date ∧
    (geomag_calculate g glat glon alt time aw rz res0).1.c = g.c ∧
    (geomag_calculate g glat glon alt time aw rz res0).1.cd = g.cd ∧
    (geomag_calculate g glat glon alt time aw rz res0).1.k = g.k ∧
    (geomag_calculate g glat glon alt time aw rz res0).1.fn = g.fn ∧
    (geomag_calculate g glat glon alt time aw rz res0).1.fm = g.fm := by
  by_cases hc : aw = false ∧ (time - g.epoch < 0 ∨ 5 < time - g.epoch)
  · rw [geomag_calculate_failed g glat glon alt time aw rz res0 hc]
    exact ⟨rfl, rfl, rfl, rfl, rfl, rfl, rfl, rfl, rfl, rfl⟩
  · rw [geomag_calculate_passed g glat glon alt time aw rz res0 hc]
    obtain ⟨ct, st, aor, sp, cp, ca, sa, heq, -⟩ :=
      calc_main_dest g glat glon alt (time - g.epoch) rz (echoed g glat glon alt time res0)
    rw [heq, calc_post_fst]
    exact ⟨rfl, rfl, rfl, rfl, rfl, rfl, rfl, rfl, rfl, rfl⟩

/-- C1 (counterexample): the claim that evaluation leaves the Model
completely unchanged is false.  M0 is a loaded model (geomag_init on an
empty record stream) whose Legendre member p holds 1 at flat index 1; the
evaluation at latitude 0 overwrites that entry, so the model returned by
geomag_calculate differs from the input model. -/
theorem c1_counterexample :
    geomag_init 2025 "WMM-2025" "11/13/2024" [] false = .ok M0 ∧
    ((geomag_calculate M0 0 0 0 2025 true false R0).1).p 1 ≠ M0.p 1 := by
  refine ⟨geomag_init_empty, ?_⟩
  rw [M0_eval_p_one 0 0 true false, M0_p_one]
  norm_num

/-- C2 (amended): geomag_calculate_uncertainty fails with
NoUncertaintyModel exactly when the time of the result lies outside every
epoch window, which happens exactly when the time is earlier than 2015 or
later than 2030 — not only when it predates 2015. -/
theorem c2_uncertainty_window (res : GeoMagResult) :
    geomag_calculate_uncertainty res = .error .NoUncertaintyModel ↔
      (res.time < 2015 ∨ 2030 < res.time) := by
  simp only [geomag_calculate_uncertainty, WMM_MODEL_2025_LOWER, WMM_MODEL_2025_UPPER,
    WMM_MODEL_2020_LOWER, WMM_MODEL_2020_UPPER, WMM_MODEL_2015_LOWER, WMM_MODEL_2015_UPPER]
  split_ifs with h1 hhr h2 h3
  · exact iff_of_false (by simp) (by push_neg; constructor <;> linarith [h1.1, h1.2])
  · exact iff_of_false (by simp) (by push_neg; constructor <;> linarith [h1.1, h1.2])
  · exact iff_of_false (by simp) (by push_neg; constructor <;> linarith [h2.1, h2.2])
  · exact iff_of_false (by simp) (by push_neg; constructor <;> linarith [h3.1, h3.2])
  · refine iff_of_true rfl ?_
    by_contra hno
    push_neg at hno
    rcases lt_or_le res.time 2020 with hlt | hge
    · exact h3 ⟨hno.1, hlt⟩
    · rcases le_or_lt res.time 2025 with hle | hgt
      · exact h2 ⟨by linarith, hle⟩
      · exact h1 ⟨by linarith, hno.2⟩

/-- C2 (counterexample): a result dated 2031 is outside every window and
the lookup fails, although 2031 is not earlier than 2015 — failure does not
mean the time predates all known error-budget tables. -/
theorem c2_counterexample :
    geomag_calculate_uncertainty { R0 with time := 2031 } = .error .NoUncertaintyModel ∧
    ¬((2031 : ℝ) < 2015) := by
  constructor
  · simp only [geomag_calculate_uncertainty, WMM_MODEL_2025_LOWER, WMM_MODEL_2025_UPPER,
      WMM_MODEL_2020_LOWER, WMM_MODEL_2020_UPPER, WMM_MODEL_2015_LOWER, WMM_MODEL_2015_UPPER]
    norm_num
  · norm_num

/-- C3 (confirmed): with allowOutsideLifespan false the call returns
TimeOutOfRange exactly when dt = time - epoch lies outside [0, 5]; with the
flag true it never returns TimeOutOfRange, and with the flag true and the
advisory zone policy it returns the success code. -/
theorem c3_time_range (g : GeoMag) (glat glon alt time : ℝ) (rz : Bool)
    (res0 : GeoMagResult) :
    ((geomag_calculate g glat glon alt time false rz res0).2.2 = CalcCode.timeOutOfRange ↔
      (time - g.epoch < 0 ∨ 5 < time - g.epoch)) ∧
    ((geomag_calculate g glat glon alt time true rz res0).2.2 ≠ CalcCode.timeOutOfRange) ∧
    ((geomag_calculate g glat glon alt time true false res0).2.2 = CalcCode.ok) := by
  refine ⟨⟨?_, ?_⟩, ?_, ?_⟩
  · intro hcode
    by_contra hno
    have hpass : ¬((false : Bool) = false ∧ (time - g.epoch < 0 ∨ 5 < time - g.epoch)) :=
      fun hh => hno hh.2
    rw [geomag_calculate_passed g glat glon alt time false rz res0 hpass] at hcode
    obtain ⟨ct, st, aor, sp, cp, ca, sa, heq, -⟩ :=
      calc_main_dest g glat glon alt (time - g.epoch) rz (echoed g glat glon alt time res0)
    rw [heq] at hcode
    exact calc_post_code_ne_time _ _ _ _ _ _ _ _ _ hcode
  · intro hdt
    rw [geomag_calculate_failed g glat glon alt time false rz res0 ⟨rfl, hdt⟩]
  · intro hcode
    have hpass : ¬((true : Bool) = false ∧ (time - g.epoch < 0 ∨ 5 < time - g.epoch)) := by
      simp
    rw [geomag_calculate_passed g glat glon alt time true rz res0 hpass] at hcode
    obtain ⟨ct, st, aor, sp, cp, ca, sa, heq, -⟩ :=
      calc_main_dest g glat glon alt (time - g.epoch) rz (echoed g glat glon alt time res0)
    rw [heq] at hcode
    exact calc_post_code_ne_time _ _ _ _ _ _ _ _ _ hcode
  · have hpass : ¬((true : Bool) = false ∧ (time - g.epoch < 0 ∨ 5 < time - g.epoch)) := by
      simp
    rw [geomag_calculate_passed g glat glon alt time true false res0 hpass]
    obtain ⟨ct, st, aor, sp, cp, ca, sa, heq, -⟩ :=
      calc_main_dest g glat glon alt (time - g.epoch) false (echoed g glat glon alt time res0)
    rw [heq]
    exact calc_post_code_advisory _ _ _ _ _ _ _ _

/-- C4 (confirmed): for every evaluation that passes the time check, the
blackout flag is set exactly when the computed horizontal intensity is below
2000 nT and the caution flag exactly when it lies in [2000, 6000); under the
hard-error policy the two zones are returned as the two distinct error codes,
and under the advisory policy the call returns the success code with the
flags set. -/
theorem c4_zone_classification (g : GeoMag) (glat glon alt time : ℝ)
    (aw rz : Bool) (res0 : GeoMagResult)
    (hpass : ¬(aw = false ∧ (time - g.epoch < 0 ∨ 5 < time - g.epoch))) :
    ((geomag_calculate g glat glon alt time aw rz res0).2.1.in_blackout_zone = true ↔
      (geomag_calculate g glat glon alt time aw rz res0).2.1.h < 2000) ∧
    ((geomag_calculate g glat glon alt time aw rz res0).2.1.in_caution_zone = true ↔
      (2000 ≤ (geomag_calculate g glat glon alt time aw rz res0).2.1.h ∧
        (geomag_calculate g glat glon alt time aw rz res0).2.1.h < 6000)) ∧
    (rz = true →
      (((geomag_calculate g glat glon alt time aw rz res0).2.2 = CalcCode.blackoutZone ↔
        (geomag_calculate g glat glon alt time aw rz res0).2.1.h < 2000) ∧
       ((geomag_calculate g glat glon alt time aw rz res0).2.2 = CalcCode.cautionZone ↔
        (2000 ≤ (geomag_calculate g glat glon alt time aw rz res0).2.1.h ∧
          (geomag_calculate g glat glon alt time aw rz res0).2.1.h < 6000)))) ∧
    (rz = false → (geomag_calculate g glat glon alt time aw rz res0).2.2 = CalcCode.ok) := by
  rw [geomag_calculate_passed g glat glon alt time aw rz res0 hpass]
  obtain ⟨ct, st, aor, sp, cp, ca, sa, heq, -⟩ :=
    calc_main_dest g glat glon alt (time - g.epoch) rz (echoed g glat glon alt time res0)
  rw [heq]
  refine ⟨calc_post_blackout_flag _ _ _ _ _ _ _ _ _ rfl,
    calc_post_caution_flag _ _ _ _ _ _ _ _ _ rfl, fun hrz => ?_, fun hrz => ?_⟩
  · subst hrz
    exact calc_post_codes _ _ _ _ _ _ _ _
  · subst hrz
    exact calc_post_code_advisory _ _ _ _ _ _ _ _

/-- C4 (witness): the concrete call on M0 at the Equator and model epoch
passes the time check and satisfies the blackout-flag equivalence. -/
theorem c4_zone_classification_witness :
    ¬((false : Bool) = false ∧ ((2025 : ℝ) - M0.epoch < 0 ∨ 5 < (2025 : ℝ) - M0.epoch)) ∧
    ((geomag_calculate M0 0 0 0 2025 false false R0).2.1.in_blackout_zone = true ↔
      (geomag_calculate M0 0 0 0 2025 false false R0).2.1.h < 2000) := by
  have hpass : ¬((false : Bool) = false ∧
      ((2025 : ℝ) - M0.epoch < 0 ∨ 5 < (2025 : ℝ) - M0.epoch)) := by
    rw [M0_epoch]
    norm_num
  exact ⟨hpass, (c4_zone_classification M0 0 0 0 2025 false false R0 hpass).1⟩

/-- C7 (confirmed): for every successful evaluation the returned components
are self-consistent: F is the root of the squares of X, Y, Z and H is the
root of the squares of X, Y, exactly (in real arithmetic), because X, Y, Z
and H are recomputed from F, D, I by trigonometric re-projection. -/
theorem c7_self_consistency (g : GeoMag) (glat glon alt time : ℝ) (aw rz : Bool)
    (res0 : GeoMagResult)
    (hok : (geomag_calculate g glat glon alt time aw rz res0).2.2 = CalcCode.ok) :
    (geomag_calculate g glat glon alt time aw rz res0).2.1.f =
      Real.sqrt ((geomag_calculate g glat glon alt time aw rz res0).2.1.x ^ 2 +
        (geomag_calculate g glat glon alt time aw rz res0).2.1.y ^ 2 +
        (geomag_calculate g glat glon alt time aw rz res0).2.1.z ^ 2) ∧
    (geomag_calculate g glat glon alt time aw rz res0).2.1.h =
      Real.sqrt ((geomag_calculate g glat glon alt time aw rz res0).2.1.x ^ 2 +
        (geomag_calculate g glat glon alt time aw rz res0).2.1.y ^ 2) := by
  by_cases hc : aw = false ∧ (time - g.epoch < 0 ∨ 5 < time - g.epoch)
  · rw [geomag_calculate_failed g glat glon alt time aw rz res0 hc] at hok
    exact absurd hok (by simp)
  · rw [geomag_calculate_passed g glat glon alt time aw rz res0 hc]
    obtain ⟨ct, st, aor, sp, cp, ca, sa, heq, -⟩ :=
      calc_main_dest g glat glon alt (time - g.epoch) rz (echoed g glat glon alt time res0)
    rw [heq]
    exact calc_post_selfcons _ _ _ _ _ _ _ _ _

/-- C7 (witness): the concrete successful evaluation of M0 at the Equator
satisfies the total-intensity identity. -/
theorem c7_self_consistency_witness :
    (geomag_calculate M0 0 0 0 2025 false false R0).2.2 = CalcCode.ok ∧
    (geomag_calculate M0 0 0 0 2025 false false R0).2.1.f =
      Real.sqrt ((geomag_calculate M0 0 0 0 2025 false false R0).2.1.x ^ 2 +
        (geomag_calculate M0 0 0 0 2025 false false R0).2.1.y ^ 2 +
        (geomag_calculate M0 0 0 0 2025 false false R0).2.1.z ^ 2) := by
  have hok : (geomag_calculate M0 0 0 0 2025 false false R0).2.2 = CalcCode.ok := by
    have hc := (M0_eval 0 0 0 false false).2.2
    simpa using hc
  exact ⟨hok, (c7_self_consistency M0 0 0 0 2025 false false R0 hok).1⟩

/-- Ingestion stops at the first 9999 end marker: the records after it are
irrelevant and the state reached by the records before it is returned. -/
theorem load_read_stop (size maxord : ℕ) (r : Record) (hr : r.n = 9999) :
    ∀ (pre rest : List Record) (c cd : ℕ → ℕ → ℝ),
      load_read size maxord (pre ++ r :: rest) c cd = load_read size maxord pre c cd := by
  intro pre
  induction pre with
  | nil =>
    intro rest c cd
    rw [List.nil_append]
    show load_read size maxord (r :: rest) c cd = _
    simp only [load_read, if_pos hr]
  | cons a tl ih =>
    intro rest c cd
    rw [List.cons_append]
    show load_read size maxord (a :: (tl ++ r :: rest)) c cd = _
    simp only [load_read]
    by_cases h1 : a.n = 9999
    · simp only [if_pos h1]
    · simp only [if_neg h1]
      by_cases h2 : (maxord : ℤ) < a.m
      · simp only [if_pos h2]
      · simp only [if_neg h2]
        by_cases h3 : a.n < a.m ∨ a.m < 0 ∨ (size : ℤ) ≤ a.n ∨ (size : ℤ) ≤ a.m
        · simp only [if_pos h3]
        · simp only [if_neg h3]
          by_cases h4 : a.m ≤ a.n
          · simp only [if_pos h4]
            exact ih rest _ _
          · simp only [if_neg h4]
            exact ih rest _ _

/-- C5 (amended): ingestion stops at the first record with n = 9999
regardless of the remaining stream; a record with m > maxord (the table
bound minus one) terminates reading early without error, and this check
takes precedence over validation; a record that survives the m > maxord
check and has m > n, m < 0 or n or m beyond the table bound aborts with
CorruptRecord. -/
theorem c5_load_read_behaviour (size maxord : ℕ) (c cd : ℕ → ℕ → ℝ) (r : Record)
    (pre rest : List Record) :
    (r.n = 9999 →
      load_read size maxord (pre ++ r :: rest) c cd = load_read size maxord pre c cd) ∧
    (r.n ≠ 9999 → (maxord : ℤ) < r.m →
      load_read size maxord (r :: rest) c cd = .ok (c, cd)) ∧
    (r.n ≠ 9999 → r.m ≤ (maxord : ℤ) →
      (r.n < r.m ∨ r.m < 0 ∨ (size : ℤ) ≤ r.n ∨ (size : ℤ) ≤ r.m) →
      load_read size maxord (r :: rest) c cd = .error .CorruptRecord) := by
  refine ⟨fun h9 => load_read_stop size maxord r h9 pre rest c cd,
    fun h9 hm => ?_, fun h9 hm hbad => ?_⟩
  · simp only [load_read, if_neg h9, if_pos hm]
  · simp only [load_read, if_neg h9, if_neg (not_lt.mpr hm), if_pos hbad]

/-- C5 (witness): concrete instances of the three behaviours at standard
resolution (size 13, maxord 12). -/
theorem c5_load_read_behaviour_witness :
    (load_read 13 12 ([] ++ { n := 9999, m := 0, gnm := 0, hnm := 0, dgnm := 0, dhnm := 0 } ::
        [{ n := 1, m := 0, gnm := 5, hnm := 0, dgnm := 0, dhnm := 0 }])
        (fun _ _ => 0) (fun _ _ => 0) =
      load_read 13 12 [] (fun _ _ => 0) (fun _ _ => 0)) ∧
    (load_read 13 12 [{ n := 0, m := 13, gnm := 0, hnm := 0, dgnm := 0, dhnm := 0 }]
        (fun _ _ => 0) (fun _ _ => 0) = .ok (fun _ _ => 0, fun _ _ => 0)) ∧
    (load_read 13 12 [{ n := 1, m := 2, gnm := 0, hnm := 0, dgnm := 0, dhnm := 0 }]
        (fun _ _ => 0) (fun _ _ => 0) = .error .CorruptRecord) := by
  refine ⟨(c5_load_read_behaviour 13 12 _ _ _ _ _).1 rfl,
    (c5_load_read_behaviour 13 12 _ _ _ [] _).2.1 (by decide) (by decide),
    (c5_load_read_behaviour 13 12 _ _ _ [] _).2.2 (by decide) (by decide) (Or.inl (by decide))⟩

/-- C5 (counterexample): the record (n = 13, m = 13) has both indices at the
table bound (size = 13 at standard resolution), yet the load succeeds with
the same model as an empty stream instead of aborting with CorruptRecord,
because the m > maxord early stop takes precedence over validation. -/
theorem c5_counterexample :
    geomag_init 2025 "WMM-2025" "11/13/2024"
      [{ n := 13, m := 13, gnm := 1, hnm := 1, dgnm := 1, dhnm := 1 }] false = .ok M0 ∧
    (WMM_SIZE_STANDARD : ℤ) + 1 ≤ 13 := by
  constructor
  · rfl
  · norm_num [WMM_SIZE_STANDARD]

/-- C8 (confirmed): a result whose time is matched by the 2025 window with
the high-resolution flag clear receives exactly the WMM-2025 error-model
constants, with the declination uncertainty computed from the result H. -/
theorem c8_uncertainty_2025 (res : GeoMagResult)
    (h1 : 2025 ≤ res.time) (h2 : res.time ≤ 2030)
    (h3 : res.is_high_resolution = false) :
    geomag_calculate_uncertainty res = .ok
      { x := 137, y := 89, z := 141, h := 133, f := 138, i := 0.20,
        d := Real.sqrt (0.26 ^ 2 + (5417 / res.h) ^ 2) } := by
  have harg : (0.26 : ℝ) * 0.26 + 5417 / res.h * (5417 / res.h) =
      0.26 ^ 2 + (5417 / res.h) ^ 2 := by ring
  simp only [geomag_calculate_uncertainty, WMM_MODEL_2025_LOWER, WMM_MODEL_2025_UPPER]
  rw [if_pos ⟨h1, h2⟩, h3]
  simp only [Bool.false_eq_true, if_false, harg]

/-- C8 (witness): the constants at the concrete time 2025.25. -/
theorem c8_uncertainty_2025_witness :
    (2025 : ℝ) ≤ ({ R0 with time := 2025.25 } : GeoMagResult).time ∧
    geomag_calculate_uncertainty { R0 with time := 2025.25 } = .ok
      { x := 137, y := 89, z := 141, h := 133, f := 138, i := 0.20,
        d := Real.sqrt (0.26 ^ 2 + (5417 / ({ R0 with time := 2025.25 } : GeoMagResult).h) ^ 2) } := by
  refine ⟨by norm_num, c8_uncertainty_2025 _ (by norm_num) (by norm_num) rfl⟩

/-- Two records that agree on n, m, gnm, dgnm and, when m is nonzero, also
on hnm, dhnm; when m = 0 the hnm and dhnm fields may differ freely. -/
def RecordEqModH (r1 r2 : Record) : Prop :=
  r1.n = r2.n ∧ r1.m = r2.m ∧ r1.gnm = r2.gnm ∧ r1.dgnm = r2.dgnm ∧
  (r1.m ≠ 0 → r1.hnm = r2.hnm ∧ r1.dhnm = r2.dhnm)

theorem load_read_congr_m0 (size maxord : ℕ) :
    ∀ (rs1 rs2 : List Record), List.Forall₂ RecordEqModH rs1 rs2 →
      ∀ (c cd : ℕ → ℕ → ℝ),
        load_read size maxord rs1 c cd = load_read size maxord rs2 c cd := by
  intro rs1 rs2 hrel
  induction hrel with
  | nil => intro c cd; rfl
  | @cons a1 a2 l1 l2 hr hrel ih =>
    intro c cd
    obtain ⟨n1, m1, g1, hv1, dg1, dh1⟩ := a1
    obtain ⟨n2, m2, g2, hv2, dg2, dh2⟩ := a2
    obtain ⟨hn, hm, hg, hdg, hh⟩ := hr
    simp only at hn hm hg hdg hh
    subst hn hm hg hdg
    simp only [load_read]
    by_cases h1 : n1 = 9999
    · simp only [if_pos h1]
    · simp only [if_neg h1]
      by_cases h2 : (maxord : ℤ) < m1
      · simp only [if_pos h2]
      · simp only [if_neg h2]
        by_cases h3 : n1 < m1 ∨ m1 < 0 ∨ (size : ℤ) ≤ n1 ∨ (size : ℤ) ≤ m1
        · simp only [if_pos h3]
        · simp only [if_neg h3]
          by_cases h4 : m1 ≤ n1
          · simp only [if_pos h4]
            by_cases hm0 : m1 ≠ 0
            · obtain ⟨hhn, hhd⟩ := hh hm0
              subst hhn hhd
              exact ih _ _
            · simp only [if_neg hm0]
              exact ih _ _
          · simp only [if_neg h4]
            exact ih _ _

/-- C9 (confirmed): the hnm and dhnm fields of records with m = 0 have no
effect on the constructed model: loading two record streams that differ
only in those fields of m = 0 records gives identical models. -/
theorem c9_h_ignored_for_m0 (rs1 rs2 : List Record)
    (hrel : List.Forall₂ RecordEqModH rs1 rs2) (ep : ℝ) (nm rd : String) (hr : Bool) :
    geomag_init ep nm rd rs1 hr = geomag_init ep nm rd rs2 hr := by
  simp only [geomag_init]
  rw [load_read_congr_m0 _ _ rs1 rs2 hrel]

/-- C9 (witness): two one-record streams whose only differences are the h
fields of an m = 0 record load to the same model. -/
theorem c9_h_ignored_for_m0_witness :
    geomag_init 2030 "WMM" "2029" [{ n := 1, m := 0, gnm := 5, hnm := 7, dgnm := 3, dhnm := 9 }] true =
      geomag_init 2030 "WMM" "2029" [{ n := 1, m := 0, gnm := 5, hnm := 8, dgnm := 3, dhnm := 4 }] true := by
  refine c9_h_ignored_for_m0 _ _ ?_ 2030 "WMM" "2029" true
  refine List.Forall₂.cons ⟨rfl, rfl, rfl, rfl, fun h0 => absurd rfl h0⟩ List.Forall₂.nil

/-- C10 (confirmed): when geomag_calculate fails the time-range check, the
result struct of the caller has already been modified: the echoed time,
altitude, latitude and longitude are written, both zone flags are cleared
and the high-resolution flag is set from the model, while the remaining
fields keep the prior contents of the struct. -/
theorem c10_failed_write (g : GeoMag) (glat glon alt time : ℝ) (rz : Bool)
    (res0 : GeoMagResult)
    (hdt : time - g.epoch < 0 ∨ 5 < time - g.epoch) :
    geomag_calculate g glat glon alt time false rz res0 =
      (g, { res0 with
            time := time, alt := alt, glat := glat, glon := glon,
            in_blackout_zone := false, in_caution_zone := false,
            is_high_resolution := g.maxord == WMM_SIZE_HIGH_RESOLUTION },
        CalcCode.timeOutOfRange) :=
  geomag_calculate_failed g glat glon alt time false rz res0 ⟨rfl, hdt⟩

/-- C10 (witness): a concrete out-of-range call on M0 whose prior result
struct had the blackout flag set: the returned struct is the written one and
its blackout flag was cleared, so the struct did not stay unchanged. -/
theorem c10_failed_write_witness :
    (5 < (2031 : ℝ) - M0.epoch) ∧
    (geomag_calculate M0 1 2 3 2031 false false { R0 with in_blackout_zone := true } =
      (M0, { R0 with
             time := 2031, alt := 3, glat := 1, glon := 2,
             in_blackout_zone := false, in_caution_zone := false,
             is_high_resolution := M0.maxord == WMM_SIZE_HIGH_RESOLUTION },
        CalcCode.timeOutOfRange)) ∧
    (geomag_calculate M0 1 2 3 2031 false false
        { R0 with in_blackout_zone := true }).2.1.in_blackout_zone ≠
      ({ R0 with in_blackout_zone := true } : GeoMagResult).in_blackout_zone := by
  have hdt : (2031 : ℝ) - M0.epoch < 0 ∨ 5 < (2031 : ℝ) - M0.epoch := by
    rw [M0_epoch]
    norm_num
  have he := c10_failed_write M0 1 2 3 2031 false { R0 with in_blackout_zone := true } hdt
  refine ⟨by rw [M0_epoch]; norm_num, ?_, ?_⟩
  · rw [he]
  · rw [he]
    simp

end

end Geomag
